import Mathlib

/-!
Verification of the ally-wizard CLI scaffolder

This file gives a shallow embedding, in Lean 4, of the core logic of the
`ally-wizard` interactive command-line scaffolder, and proves the properties
of its specification against that embedding.

The program augments an existing React + Vite project with accessibility
tooling.  Its pure core consists of:

* static lookup tables (`src/lib/constants.js`),
* package-manager detection from lock files (`src/lib/package-manager.js`),
* user-preference collection (`src/lib/user-input.js`),
* `package.json` script updates (`src/lib/setup-manager.js`),
* a CI-workflow text generator (`src/lib/workflow-generator.js`),
* an ESLint-config patcher (`src/lib/eslint-config.js`),
* the top-level orchestration with a catch-all error handler (`src/cli.js`).

File-system reads/writes, package installation and interactive prompts are
external collaborators; they are embedded as explicit inputs (answers given
to the prompts, boolean flags describing the file system and which external
operations fail) and as an explicit trace of effects (files written,
packages installed, messages logged).

The workflow generator builds one large YAML document by string-template
concatenation.  Strings are embedded here line by line: every template
literal of `workflow-generator.js` appears below as the list of its lines
(the generated document is the `"\n"`-intercalation of the line list).
Braces, apostrophes and backticks inside the transcribed template text are
written with `\x7b`, `\x7d`, `\x27` and `\x60` escapes.
-/

set_option maxRecDepth 8000

/-- The fixed enumeration of accessibility tools
(`ACCESSIBILITY_TOOLS` in `src/lib/constants.js`). -/
inductive Tool where
  | axe
  | pa11y
  | lighthouse
deriving DecidableEq, Repr

/-- The string value of each tool in `ACCESSIBILITY_TOOLS`. -/
def toolName : Tool → String
  | .axe => "axe"
  | .pa11y => "pa11y"
  | .lighthouse => "lighthouse"

/-- Table `TOOL_DEPENDENCIES` from `src/lib/constants.js`: the npm package
installed for each tool. -/
def TOOL_DEPENDENCIES : Tool → String
  | .pa11y => "pa11y"
  | .axe => "@axe-core/cli"
  | .lighthouse => "@lhci/cli"

/-- Table `SCRIPT_MAPPINGS` from `src/lib/constants.js`: the shell command put in
the `a11y:<tool>` script for each tool. -/
def SCRIPT_MAPPINGS : Tool → String
  | .axe => "axe http://localhost:3000 --exit"
  | .pa11y => "pa11y --standard WCAG2AA --timeout 30000 --wait 2000 --include-warnings http://localhost:3000"
  | .lighthouse => "lhci autorun"

/-- The per-tool entries of `RESOURCE_LINKS` from `src/lib/constants.js`. -/
def RESOURCE_LINKS : Tool → String
  | .axe => "Axe: https://www.deque.com/axe/"
  | .pa11y => "Pa11y: https://pa11y.org/"
  | .lighthouse => "Lighthouse: https://developers.google.com/web/tools/lighthouse"

/-- The `WCAG` entry of `RESOURCE_LINKS`. -/
def RESOURCE_LINKS_WCAG : String := "WCAG Guidelines: https://www.w3.org/WAI/WCAG21/quickref/"

/-- The tool list assembled by `getUserPreferences` in `src/lib/user-input.js`
from the three toggle answers: `Object.entries(toolPreferences)` preserves the
insertion order axe, pa11y, lighthouse, and the truthy entries are kept. -/
def selectedToolsOf (axeAns pa11yAns lighthouseAns : Bool) : List Tool :=
  (if axeAns then [Tool.axe] else [])
    ++ (if pa11yAns then [Tool.pa11y] else [])
    ++ (if lighthouseAns then [Tool.lighthouse] else [])

/-- The `toolsArray` string interpolated into both `needs:` lists of the
workflow template: `[${selectedTools.map(tool => tool === "axe" ? "axe-core"
: tool).join(", ")}]`. -/
def toolsArrayStr (selectedTools : List Tool) : String :=
  "[" ++ String.intercalate ", "
      (selectedTools.map (fun t => if t = Tool.axe then "axe-core" else toolName t)) ++ "]"
/-- Lines of the template literal returned by `generateAxeJob` in the workflow
generator.  The template starts with a newline, hence the leading empty line. -/
def generateAxeJobLines : List String := [ "",
  "  axe-core:",
  "    name: Axe Core Accessibility Testing",
  "    runs-on: ubuntu-latest",
  "    needs: setup",
  "    steps:",
  "      - uses: actions/checkout@v4",
  "      - uses: actions/setup-node@v4",
  "        with:",
  "          node-version: 20",
  "          cache: \"yarn\"",
  "",
  "      - name: Restore dependencies",
  "        uses: actions/cache@v4",
  "        with:",
  "          path: node_modules",
  "          key: $\x7b\x7b needs.setup.outputs.cache-key \x7d\x7d",
  "",
  "      - name: Restore build output",
  "        uses: actions/cache@v4",
  "        with:",
  "          path: dist",
  "          key: $\x7b\x7b runner.os \x7d\x7d-build-$\x7b\x7b github.sha \x7d\x7d",
  "",
  "      - name: Start preview server",
  "        run: |",
  "          yarn preview --port 3000 &",
  "          npx wait-on http://localhost:3000 --timeout 60000",
  "",
  "      - name: Install Axe CLI and browser drivers",
  "        run: |",
  "          npm install -g @axe-core/cli",
  "          npx browser-driver-manager install chrome",
  "",
  "      - name: Run Axe accessibility tests",
  "        run: |",
  "          mkdir -p axe-results",
  "          axe http://localhost:3000 --save axe-results/axe-results.json --tags wcag2a,wcag2aa,wcag21aa --exit",
  "",
  "      - name: Upload Axe results",
  "        uses: actions/upload-artifact@v4",
  "        if: always()",
  "        with:",
  "          name: axe-accessibility-results",
  "          path: axe-results/" ]

/-- Lines of the template literal returned by `generateLighthouseJob` in the workflow
generator.  The template starts with a newline, hence the leading empty line. -/
def generateLighthouseJobLines : List String := [ "",
  "  lighthouse:",
  "    name: Lighthouse Accessibility & Performance",
  "    runs-on: ubuntu-latest",
  "    needs: setup",
  "    steps:",
  "      - uses: actions/checkout@v4",
  "      - uses: actions/setup-node@v4",
  "        with:",
  "          node-version: 20",
  "          cache: \"yarn\"",
  "",
  "      - name: Restore dependencies",
  "        uses: actions/cache@v4",
  "        with:",
  "          path: node_modules",
  "          key: $\x7b\x7b needs.setup.outputs.cache-key \x7d\x7d",
  "",
  "      - name: Restore build output",
  "        uses: actions/cache@v4",
  "        with:",
  "          path: dist",
  "          key: $\x7b\x7b runner.os \x7d\x7d-build-$\x7b\x7b github.sha \x7d\x7d",
  "",
  "      - name: Install Lighthouse CI",
  "        run: npm install -g @lhci/cli",
  "",
  "      - name: Start preview server",
  "        run: |",
  "          yarn preview --port 3000 &",
  "          npx wait-on http://localhost:3000 --timeout 60000",
  "",
  "      - name: Run Lighthouse CI",
  "        run: lhci autorun",
  "",
  "      - name: Collect Lighthouse artifacts",
  "        if: always()",
  "        run: |",
  "          mkdir -p lighthouse-results",
  "          if [ -d \".lighthouseci\" ]; then",
  "            cp -r .lighthouseci/* lighthouse-results/ 2>/dev/null || true",
  "          fi",
  "          if [ -d \"lhci_reports\" ]; then",
  "            cp -r lhci_reports/* lighthouse-results/ 2>/dev/null || true",
  "          fi",
  "",
  "      - name: Upload Lighthouse results",
  "        uses: actions/upload-artifact@v4",
  "        if: always()",
  "        with:",
  "          name: lighthouse-results",
  "          path: lighthouse-results/" ]

/-- Lines of the template literal returned by `generatePa11yJob` in the workflow
generator.  The template starts with a newline, hence the leading empty line. -/
def generatePa11yJobLines : List String := [ "",
  "  pa11y:",
  "    name: Pa11y Accessibility Testing",
  "    runs-on: ubuntu-latest",
  "    needs: setup",
  "    steps:",
  "      - uses: actions/checkout@v4",
  "      - uses: actions/setup-node@v4",
  "        with:",
  "          node-version: 20",
  "          cache: \"yarn\"",
  "",
  "      - name: Restore dependencies",
  "        uses: actions/cache@v4",
  "        with:",
  "          path: node_modules",
  "          key: $\x7b\x7b needs.setup.outputs.cache-key \x7d\x7d",
  "",
  "      - name: Restore build output",
  "        uses: actions/cache@v4",
  "        with:",
  "          path: dist",
  "          key: $\x7b\x7b runner.os \x7d\x7d-build-$\x7b\x7b github.sha \x7d\x7d",
  "",
  "      - name: Install Pa11y",
  "        run: npm install -g pa11y",
  "",
  "      - name: Start preview server",
  "        run: |",
  "          yarn preview --port 3000 &",
  "          npx wait-on http://localhost:3000 --timeout 60000",
  "",
  "      - name: Run Pa11y accessibility tests",
  "        env:",
  "          PUPPETEER_EXECUTABLE_PATH: /usr/bin/google-chrome-stable",
  "        run: |",
  "          mkdir -p pa11y-results",
  "          export PUPPETEER_LAUNCH_ARGS=\"--no-sandbox --disable-setuid-sandbox --disable-dev-shm-usage --disable-gpu --headless\"",
  "          pa11y http://localhost:3000 --reporter json > pa11y-results/pa11y-results.json || true",
  "          pa11y http://localhost:3000 --reporter cli",
  "",
  "      - name: Upload Pa11y results",
  "        uses: actions/upload-artifact@v4",
  "        if: always()",
  "        with:",
  "          name: pa11y-accessibility-results",
  "          path: pa11y-results/" ]

/-- Fixed leading lines of the workflow template in `generateWorkflowContent`
(everything before the three conditional per-tool job interpolations). -/
def workflowHeaderLines : List String := [
  "name: Accessibility Testing",
  "",
  "on:",
  "  push:",
  "    branches: [main]",
  "  pull_request:",
  "    branches: [main]",
  "",
  "env:",
  "  TEST_BASE_URL: http://localhost:3000",
  "  TEST_PAGES: \"/\"",
  "",
  "jobs:",
  "  setup:",
  "    name: Setup and build",
  "    runs-on: ubuntu-latest",
  "    outputs:",
  "      cache-key: $\x7b\x7b steps.cache-key.outputs.key \x7d\x7d",
  "    steps:",
  "      - uses: actions/checkout@v4",
  "      - uses: actions/setup-node@v4",
  "        with:",
  "          node-version: 20",
  "          cache: \"yarn\"",
  "",
  "      - name: Generate cache key",
  "        id: cache-key",
  "        run: echo \"key=$\x7b\x7b runner.os \x7d\x7d-a11y-node20-$\x7b\x7b hashFiles(\x27yarn.lock\x27) \x7d\x7d\" >> $GITHUB_OUTPUT",
  "",
  "      - name: Cache dependencies",
  "        uses: actions/cache@v4",
  "        with:",
  "          path: node_modules",
  "          key: $\x7b\x7b steps.cache-key.outputs.key \x7d\x7d",
  "          restore-keys: |",
  "            $\x7b\x7b runner.os \x7d\x7d-a11y-node20-",
  "",
  "      - name: Install dependencies",
  "        run: yarn install --frozen-lockfile",
  "",
  "      - name: Build site",
  "        run: yarn build",
  "",
  "      - name: Cache build output",
  "        uses: actions/cache@v4",
  "        with:",
  "          path: dist",
  "          key: $\x7b\x7b runner.os \x7d\x7d-build-$\x7b\x7b github.sha \x7d\x7d",
  "" ]

/-- Lines of the `accessibility-comment` job of the workflow template, with its
conditional interpolations, exactly as in `generateWorkflowContent`. -/
def commentJobLines (selectedTools : List Tool) : List String := [
  "  accessibility-comment:",
  "    name: Accessibility Test Summary Comment",
  "    runs-on: ubuntu-latest",
  "    needs: " ++ toolsArrayStr selectedTools,
  "    if: always() && github.event_name == \x27pull_request\x27",
  "    permissions:",
  "      contents: read",
  "      pull-requests: write",
  "    steps:",
  "      - uses: actions/checkout@v4",
  "",
  "      - name: Download all artifacts",
  "        uses: actions/download-artifact@v4",
  "",
  "      - name: Create accessibility summary comment",
  "        uses: actions/github-script@v7",
  "        with:",
  "          github-token: $\x7b\x7b secrets.GITHUB_TOKEN \x7d\x7d",
  "          script: |",
  "            const fs = require(\x27fs\x27);",
  "",
  "            // Find and delete any existing accessibility comments",
  "            const comments = await github.rest.issues.listComments(\x7b",
  "              issue_number: context.issue.number,",
  "              owner: context.repo.owner,",
  "              repo: context.repo.repo,",
  "            \x7d);",
  "",
  "            const accessibilityComments = comments.data.filter(comment => ",
  "              comment.body.includes(\x27🔍 Accessibility Test Results\x27) &&",
  "              comment.body.includes(\x27🤖 This comment was automatically generated\x27)",
  "            );",
  "",
  "            for (const comment of accessibilityComments) \x7b",
  "              try \x7b",
  "                await github.rest.issues.deleteComment(\x7b",
  "                  owner: context.repo.owner,",
  "                  repo: context.repo.repo,",
  "                  comment_id: comment.id,",
  "                \x7d);",
  "              \x7d catch (error) \x7b",
  "                console.log(\x60Could not delete comment $\x7bcomment.id\x7d: $\x7berror.message\x7d\x60);",
  "              \x7d",
  "            \x7d",
  "",
  "            // Get job results",
  "            " ++ (if Tool.axe ∈ selectedTools then "const axeResult = \x27$\x7b\x7b needs.axe-core.result \x7d\x7d\x27;" else ""),
  "            " ++ (if Tool.lighthouse ∈ selectedTools then "const lighthouseResult = \x27$\x7b\x7b needs.lighthouse.result \x7d\x7d\x27;" else ""),
  "            " ++ (if Tool.pa11y ∈ selectedTools then "const pa11yResult = \x27$\x7b\x7b needs.pa11y.result \x7d\x7d\x27;" else ""),
  "",
  "            function getStatusDisplay(result) \x7b",
  "              switch(result) \x7b",
  "                case \x27success\x27: return \x7b emoji: \x27✅\x27, text: \x27Passed\x27 \x7d;",
  "                case \x27failure\x27: return \x7b emoji: \x27❌\x27, text: \x27Failed\x27 \x7d;",
  "                case \x27cancelled\x27: return \x7b emoji: \x27⏭️\x27, text: \x27Cancelled\x27 \x7d;",
  "                case \x27skipped\x27: return \x7b emoji: \x27⚪\x27, text: \x27Skipped\x27 \x7d;",
  "                default: return \x7b emoji: \x27❓\x27, text: \x27Unknown\x27 \x7d;",
  "              \x7d",
  "            \x7d",
  "",
  "            " ++ (if Tool.axe ∈ selectedTools then "const axeStatus = getStatusDisplay(axeResult);" else ""),
  "            " ++ (if Tool.lighthouse ∈ selectedTools then "const lighthouseStatus = getStatusDisplay(lighthouseResult);" else ""),
  "            " ++ (if Tool.pa11y ∈ selectedTools then "const pa11yStatus = getStatusDisplay(pa11yResult);" else ""),
  "",
  "            const comment = \x60## 🔍 Accessibility Test Results",
  "",
  "            | Tool | Status | Result |",
  "            |------|--------|--------|",
  "            " ++ (if Tool.axe ∈ selectedTools then "| **Axe Core** | $\x7baxeStatus.emoji\x7d | $\x7baxeStatus.text\x7d |" else ""),
  "            " ++ (if Tool.lighthouse ∈ selectedTools then "| **Lighthouse** | $\x7blighthouseStatus.emoji\x7d | $\x7blighthouseStatus.text\x7d |" else ""),
  "            " ++ (if Tool.pa11y ∈ selectedTools then "| **Pa11y** | $\x7bpa11yStatus.emoji\x7d | $\x7bpa11yStatus.text\x7d |" else ""),
  "",
  "            Download detailed results from the **Artifacts** section of this workflow run.",
  "",
  "            ---",
  "            <sub>🤖 This comment was automatically generated by the accessibility testing workflow</sub>\x60;",
  "",
  "            await github.rest.issues.createComment(\x7b",
  "              issue_number: context.issue.number,",
  "              owner: context.repo.owner,",
  "              repo: context.repo.repo,",
  "              body: comment",
  "            \x7d);" ]

/-- Lines of the `accessibility-summary` job of the workflow template, with its
conditional interpolations, exactly as in `generateWorkflowContent`. -/
def summaryJobLines (selectedTools : List Tool) : List String :=
  [
  "  accessibility-summary:",
  "    name: Accessibility Test Summary",
  "    runs-on: ubuntu-latest",
  "    needs: " ++ toolsArrayStr selectedTools,
  "    if: always()",
  "    steps:",
  "      - name: Download all artifacts",
  "        uses: actions/download-artifact@v4",
  "",
  "      - name: Create accessibility summary",
  "        run: |",
  "          echo \"# 🔍 Accessibility Test Results\" >> $GITHUB_STEP_SUMMARY",
  "          echo \"\" >> $GITHUB_STEP_SUMMARY",
  "" ]
  ++ (if Tool.axe ∈ selectedTools then [
       "          if [ \"$\x7b\x7b needs.axe-core.result \x7d\x7d\" = \"success\" ]; then",
       "            echo \"✅ **Axe Core**: All accessibility tests passed\" >> $GITHUB_STEP_SUMMARY",
       "          else",
       "            echo \"❌ **Axe Core**: Accessibility issues found\" >> $GITHUB_STEP_SUMMARY",
       "          fi" ]
      else [ "          " ])
  ++ (if Tool.lighthouse ∈ selectedTools then [
       "          if [ \"$\x7b\x7b needs.lighthouse.result \x7d\x7d\" = \"success\" ]; then",
       "            echo \"✅ **Lighthouse**: Performance and accessibility scores met thresholds\" >> $GITHUB_STEP_SUMMARY",
       "          else",
       "            echo \"⚠️ **Lighthouse**: Performance or accessibility scores below threshold\" >> $GITHUB_STEP_SUMMARY",
       "          fi" ]
      else [ "          " ])
  ++ (if Tool.pa11y ∈ selectedTools then [
       "          if [ \"$\x7b\x7b needs.pa11y.result \x7d\x7d\" = \"success\" ]; then",
       "            echo \"✅ **Pa11y**: No accessibility violations detected\" >> $GITHUB_STEP_SUMMARY",
       "          else",
       "            echo \"❌ **Pa11y**: Accessibility violations found\" >> $GITHUB_STEP_SUMMARY",
       "          fi" ]
      else [ "          " ])
  ++ [
  "          echo \"\" >> $GITHUB_STEP_SUMMARY",
  "          echo \"📊 **Test artifacts are available for download in the workflow run**\" >> $GITHUB_STEP_SUMMARY",
  "          echo \"\" >> $GITHUB_STEP_SUMMARY" ]

/-- The full line list of the workflow document produced by
`generateWorkflowContent(selectedTools)`: the fixed header, the three
conditional per-tool job blocks (an absent block leaves the empty line that
held its interpolation in the template), and the two summary jobs. -/
def workflowLines (selectedTools : List Tool) : List String :=
  workflowHeaderLines
    ++ (if Tool.axe ∈ selectedTools then generateAxeJobLines else [ "" ])
    ++ (if Tool.lighthouse ∈ selectedTools then generateLighthouseJobLines else [ "" ])
    ++ (if Tool.pa11y ∈ selectedTools then generatePa11yJobLines else [ "" ])
    ++ [ "" ]
    ++ commentJobLines selectedTools
    ++ [ "" ]
    ++ summaryJobLines selectedTools

/-- The workflow document of `generateWorkflowContent`, as one string:
the lines joined by newlines. -/
def generateWorkflowContent (selectedTools : List Tool) : String :=
  String.intercalate "\n" (workflowLines selectedTools)

/-- The package-manager enumeration (`PACKAGE_MANAGERS` in
`src/lib/constants.js`). -/
inductive PkgManager where
  | yarn
  | pnpm
  | npm
deriving DecidableEq

/-- The string value of each entry of `PACKAGE_MANAGERS`. -/
def pmName : PkgManager → String
  | .yarn => "yarn"
  | .pnpm => "pnpm"
  | .npm => "npm"

/-- Table `LOCK_FILES` from `src/lib/constants.js`: the lock file of each
package manager. -/
def LOCK_FILES : PkgManager → String
  | .yarn => "yarn.lock"
  | .pnpm => "pnpm-lock.yaml"
  | .npm => "package-lock.json"

/-- The entry list `Object.entries(LOCK_FILES)` in its insertion order
yarn, pnpm, npm, as iterated by `detectPackageManager`. -/
def lockFileEntries : List (PkgManager × String) :=
  [(PkgManager.yarn, "yarn.lock"), (PkgManager.pnpm, "pnpm-lock.yaml"),
   (PkgManager.npm, "package-lock.json")]

/-- Function `detectPackageManager` from `src/lib/package-manager.js`: return the
first manager of `lockFileEntries` whose lock file exists in the working
directory (represented by the existence predicate `fileInCwd`), and `npm`
when none does. -/
def detectPackageManager (fileInCwd : String → Bool) : PkgManager :=
  match lockFileEntries.find? (fun e => fileInCwd e.2) with
  | some e => e.1
  | none => PkgManager.npm

/-- Function `getPackageManagerCommand` from `src/lib/package-manager.js`:
`npm` scripts are run with `npm run`, the others with the manager name. -/
def getPackageManagerCommand (packageManager : PkgManager) : String :=
  if packageManager = PkgManager.npm then "npm run" else pmName packageManager

/-- Function `buildInstallCommand` from `src/lib/package-manager.js`. -/
def buildInstallCommand (packages : List String) (isDevelopmentDependency : Bool)
    (packageManager : PkgManager) : String :=
  let packagesList := String.intercalate " " packages
  match packageManager with
  | .yarn => "yarn add " ++ (if isDevelopmentDependency then "-D " else "") ++ packagesList
  | .pnpm => "pnpm add " ++ (if isDevelopmentDependency then "-D " else "") ++ packagesList
  | .npm => "npm install " ++ (if isDevelopmentDependency then "--save-dev " else "") ++ packagesList

/-- The record returned by `getUserPreferences` in `src/lib/user-input.js`. -/
structure Preferences where
  selectedTools : List Tool
  ci : Bool
  lint : Bool
deriving DecidableEq

/-- Function `getUserPreferences` from `src/lib/user-input.js`, as a function of the
answers the user gives to the five toggle prompts.  The CI prompt is only
shown when at least one tool was selected; otherwise `ci` is set to `false`
in the `else` branch. -/
def getUserPreferences (axeAns pa11yAns lighthouseAns ciAns lintAns : Bool) : Preferences :=
  let tools := selectedToolsOf axeAns pa11yAns lighthouseAns
  { selectedTools := tools
    ci := if 0 < tools.length then ciAns else false
    lint := lintAns }

/-- Lookup of a key in a JavaScript-object-as-association-list: the value of
the first (and only) pair carrying the key. -/
def lookupScript : List (String × String) → String → Option String
  | [], _ => none
  | (k, v) :: rest, key => if k = key then some v else lookupScript rest key

/-- Assignment `obj[key] = val` on a JavaScript object represented as an
association list: an existing key keeps its position and gets the new
value, a new key is appended at the end. -/
def setScript : List (String × String) → String → String → List (String × String)
  | [], key, val => [(key, val)]
  | (k, v) :: rest, key, val =>
      if k = key then (key, val) :: rest else (k, v) :: setScript rest key val

/-- A `package.json` object as read by `readPackageJson`: its `scripts`
field (absent when the file has none) and its remaining top-level fields.
The program only ever assigns into `scripts`. -/
structure PackageJson where
  scripts : Option (List (String × String))
  otherFields : List (String × String)
deriving DecidableEq

/-- Function `updatePackageJsonWithScripts` from `src/lib/setup-manager.js`, acting on
the parsed `package.json` object (the surrounding read and write of the file
are modelled in the run trace).  Mirrors the source: create `scripts` if
absent; set `preview` when a tool is selected; set `a11y:<tool>` for each
selected tool (the source guards on `SCRIPT_MAPPINGS[tool]`, which is defined
for every tool of the enumeration); set `a11y:all` to a `concurrently`
invocation of the per-tool run commands when there is at least one. -/
def updatePackageJsonWithScripts (packageData : PackageJson)
    (selectedTools : List Tool) (packageManager : PkgManager) : PackageJson :=
  let scripts0 := packageData.scripts.getD []
  let scripts1 :=
    if 0 < selectedTools.length then setScript scripts0 "preview" "vite preview" else scripts0
  let scripts2 := selectedTools.foldl
    (fun s t => setScript s ("a11y:" ++ toolName t) (SCRIPT_MAPPINGS t)) scripts1
  let commands := selectedTools.map
    (fun t => getPackageManagerCommand packageManager ++ " a11y:" ++ toolName t)
  let scripts3 :=
    if 0 < commands.length then
      setScript scripts2 "a11y:all"
        ("concurrently \"" ++ String.intercalate "\" \"" commands ++ "\"")
    else scripts2
  { packageData with scripts := some scripts3 }

/-- Observable effects of a run: packages installed (or an installation
error caught inside `installPackages`), template files copied, files
written, messages logged.  Messages printed by the pure display helpers are
included only where a claim refers to them. -/
inductive Effect where
  | installPkgs (packages : List String)
  | caughtInstallError (packages : List String)
  | copyTemplate (fileName : String)
  | writeFileAt (path : String)
  | logMsg (message : String) (msgType : String)
deriving DecidableEq

/-- Function `installPackages` from `src/lib/package-manager.js`: the `execSync` call
sits in a `try`/`catch` whose `catch` only logs, so an installation error is
caught locally and never propagates. -/
def installPackagesEff (throws : Bool) (packages : List String) : List Effect :=
  if throws then [Effect.caughtInstallError packages] else [Effect.installPkgs packages]

/-- The external-world inputs of one run: what the file system looks like,
the answers given to the prompts, and which fallible external operations
throw when reached. -/
structure Env where
  pkgJsonExists : Bool
  pkgJsonParses : Bool
  hasReact : Bool
  hasVite : Bool
  axeAns : Bool
  pa11yAns : Bool
  lighthouseAns : Bool
  ciAns : Bool
  lintAns : Bool
  installThrows : Bool
  readPkgJsonThrows : Bool
  writePkgJsonThrows : Bool
  copyTemplateThrows : Bool
  writeWorkflowThrows : Bool
  eslintConfigExists : Bool
  eslintPatchThrows : Bool
deriving DecidableEq

/-- Function `installSelectedTools` from `src/lib/setup-manager.js`: nothing happens
for an empty selection; otherwise the mapped `TOOL_DEPENDENCIES` are
installed (errors caught inside `installPackages`), and for lighthouse the
`lighthouserc.json` template is copied — `fs.copyFileSync` may throw, which
propagates (`Except.error` carries the effects that already happened). -/
def installSelectedToolsRun (env : Env) (selectedTools : List Tool) :
    Except (List Effect) (List Effect) :=
  if selectedTools.length = 0 then Except.ok []
  else
    let e1 := installPackagesEff env.installThrows (selectedTools.map TOOL_DEPENDENCIES)
    if Tool.lighthouse ∈ selectedTools then
      if env.copyTemplateThrows then Except.error e1
      else Except.ok (e1 ++ [Effect.copyTemplate "lighthouserc.json"])
    else Except.ok e1

/-- The effect trace of the `updatePackageJsonWithScripts` call (guarded in
`cli.js` by a non-empty selection): `readPackageJson` or `writePackageJson`
may throw and propagate; on success `package.json` is written and
`concurrently` is installed (the selection is non-empty, so `commands` is
non-empty). -/
def updateScriptsRun (env : Env) : Except (List Effect) (List Effect) :=
  if env.readPkgJsonThrows then Except.error []
  else if env.writePkgJsonThrows then Except.error []
  else Except.ok ([Effect.writeFileAt "package.json"]
    ++ installPackagesEff env.installThrows ["concurrently"])

/-- The path `path.join("./.github/workflows", "accessibility.yml")` used by
`generateCIWorkflow`, normalized, relative to the current working directory. -/
def workflowFilePath : String := ".github/workflows/accessibility.yml"

/-- Function `generateCIWorkflow` from `src/lib/workflow-generator.js`: writes the
generated workflow document at `workflowFilePath`; `writeFile` may throw. -/
def generateCIWorkflowRun (env : Env) : Except (List Effect) (List Effect) :=
  if env.writeWorkflowThrows then Except.error []
  else Except.ok [Effect.writeFileAt workflowFilePath]

/-- The path `path.join(process.cwd(), "eslint.config.js")` used by
`setupAccessibilityLinting`, relative to the current working directory. -/
def eslintConfigPath : String := "eslint.config.js"

/-- Function `setupAccessibilityLinting` from `src/lib/eslint-config.js`: install the
plugin (errors caught inside `installPackages`); when `eslint.config.js`
exists, patch it (the read or write may throw and propagate), otherwise log
a warning and do nothing else. -/
def setupAccessibilityLintingRun (env : Env) : Except (List Effect) (List Effect) :=
  let e1 := [Effect.logMsg "Setting up accessibility linting" "section"]
    ++ installPackagesEff env.installThrows ["eslint-plugin-jsx-a11y"]
  if env.eslintConfigExists then
    if env.eslintPatchThrows then Except.error e1
    else Except.ok (e1 ++ [Effect.writeFileAt eslintConfigPath,
      Effect.logMsg "Updated eslint.config.js with jsx-a11y plugin" "success"])
  else
    Except.ok (e1 ++ [Effect.logMsg
      "Warning: No eslint.config.js found. Please configure eslint-plugin-jsx-a11y manually."
      "warning"])

/-- Function `displayResourceLinks` from `src/lib/setup-manager.js`: one info line per
selected tool (the source guards on `RESOURCE_LINKS[tool]`, defined for every
tool), then the WCAG link. -/
def displayResourceLinksEff (selectedTools : List Tool) : List Effect :=
  selectedTools.map (fun t => Effect.logMsg (RESOURCE_LINKS t) "info")
    ++ [Effect.logMsg RESOURCE_LINKS_WCAG "info"]

/-- The guard of the `generateCIWorkflow(selectedTools)` call in
`src/cli.js`: `ci && selectedTools.length > 0`. -/
def ciGuard (prefs : Preferences) : Bool :=
  prefs.ci && decide (0 < prefs.selectedTools.length)

/-- Sequencing of two fallible traces: the effects of the first part happen
first, and an exception in either part aborts everything after it. -/
def seqRun (first next : Except (List Effect) (List Effect)) :
    Except (List Effect) (List Effect) :=
  match first with
  | .error es => Except.error es
  | .ok es =>
      match next with
      | .error es2 => Except.error (es ++ es2)
      | .ok es2 => Except.ok (es ++ es2)

/-- The body of the `try` block of `runApplication` in `src/cli.js`, after
the project validation: collect preferences, install the selected tools,
update `package.json` when a tool is selected, generate the CI workflow
under the `ci && selectedTools.length > 0` guard, and set up linting when
enabled.  The detected package manager only influences the command strings
of untraced external invocations.  Display-only helpers are omitted from
the trace. -/
def runBody (env : Env) : Except (List Effect) (List Effect) :=
  let prefs := getUserPreferences env.axeAns env.pa11yAns env.lighthouseAns env.ciAns env.lintAns
  seqRun (installSelectedToolsRun env prefs.selectedTools)
    (seqRun (if 0 < prefs.selectedTools.length then updateScriptsRun env else Except.ok [])
      (seqRun (if ciGuard prefs then generateCIWorkflowRun env else Except.ok [])
        (if prefs.lint then setupAccessibilityLintingRun env else Except.ok [])))

/-- The two messages logged by the catch-all handler of `runApplication`
(the first one carries the error message of the caught exception; only its
fixed prefix is modelled). -/
def catchLogs : List Effect :=
  [Effect.logMsg "An error occurred" "error",
   Effect.logMsg "Please check your setup and try again." "info"]

/-- Function `runApplication` from `src/cli.js`: exit code and effect trace of one
run.  `validateReactViteProject` exits with code 1 when `package.json` is
missing, unreadable, or lacks react or vite; any exception escaping the
`try` body is caught by the catch-all handler, which logs and exits with
code 1; otherwise the process ends normally with exit code 0. -/
def runApplication (env : Env) : Nat × List Effect :=
  if env.pkgJsonExists = false then
    (1, [Effect.logMsg
      "No package.json found. Please run this command in a Node.js project directory." "error"])
  else if env.pkgJsonParses = false then
    (1, [Effect.logMsg "Could not read package.json. Please ensure it\x27s valid JSON." "error"])
  else if (env.hasReact && env.hasVite) = false then
    (1, [Effect.logMsg "This tool only works with React + Vite projects." "error"])
  else
    match runBody env with
    | .ok es => (0, es)
    | .error es => (1, es ++ catchLogs)

/-- Claim-side rendering of the per-tool CI job names: the job generated for
axe is named `axe-core`, the other jobs carry the tool name. -/
def ciJobName : Tool → String
  | .axe => "axe-core"
  | t => toolName t

/-- Claim-side `needs` list for the two summary jobs: the job names of the
selected tools, in selection order, comma separated inside brackets. -/
def jobNeedsList (selectedTools : List Tool) : String :=
  "[" ++ String.intercalate ", " (selectedTools.map ciJobName) ++ "]"

/-- An environment where everything is in place and only the package
installation commands fail: `execSync` throws inside `installPackages`,
where the error is caught and logged as a warning. -/
def envInstallFails : Env :=
  { pkgJsonExists := true
    pkgJsonParses := true
    hasReact := true
    hasVite := true
    axeAns := true
    pa11yAns := false
    lighthouseAns := false
    ciAns := false
    lintAns := false
    installThrows := true
    readPkgJsonThrows := false
    writePkgJsonThrows := false
    copyTemplateThrows := false
    writeWorkflowThrows := false
    eslintConfigExists := false
    eslintPatchThrows := false }

/-- An environment where reading `package.json` inside
`updatePackageJsonWithScripts` throws, so the exception reaches the
top-level handler. -/
def envReadPkgFails : Env :=
  { envInstallFails with installThrows := false, readPkgJsonThrows := true }

/-- An environment where every external operation succeeds, every tool is
selected, and CI integration and linting are enabled. -/
def envAllOk : Env :=
  { pkgJsonExists := true
    pkgJsonParses := true
    hasReact := true
    hasVite := true
    axeAns := true
    pa11yAns := true
    lighthouseAns := true
    ciAns := true
    lintAns := true
    installThrows := false
    readPkgJsonThrows := false
    writePkgJsonThrows := false
    copyTemplateThrows := false
    writeWorkflowThrows := false
    eslintConfigExists := false
    eslintPatchThrows := false }

/-- A sample parsed `package.json` used to instantiate theorems: some
pre-existing scripts (including a stale `a11y:pa11y` entry) and some other
top-level fields. -/
def samplePackageJson : PackageJson :=
  { scripts := some [("dev", "vite"), ("build", "vite build"), ("a11y:pa11y", "stale")]
    otherFields := [("name", "my-app"), ("version", "1.0.0")] }

/-- The environment of a run in a valid React + Vite project in which every
external operation succeeds, as a function of the five prompt answers and of
whether an `eslint.config.js` is present. -/
def cleanEnv (axeAns pa11yAns lighthouseAns ciAns lintAns eslintExists : Bool) : Env :=
  { pkgJsonExists := true
    pkgJsonParses := true
    hasReact := true
    hasVite := true
    axeAns := axeAns
    pa11yAns := pa11yAns
    lighthouseAns := lighthouseAns
    ciAns := ciAns
    lintAns := lintAns
    installThrows := false
    readPkgJsonThrows := false
    writePkgJsonThrows := false
    copyTemplateThrows := false
    writeWorkflowThrows := false
    eslintConfigExists := eslintExists
    eslintPatchThrows := false }

/-- The paths of all files written during a trace. -/
def writtenPaths (es : List Effect) : List String :=
  es.filterMap (fun e =>
    match e with
    | Effect.writeFileAt pth => some pth
    | _ => none)

/-- Key lookup after a key assignment on a JavaScript-object association
list: the assigned key reads back the new value, any other key is
unaffected. -/
theorem lookupScript_setScript (s : List (String × String)) (k v k' : String) :
    lookupScript (setScript s k v) k' = if k' = k then some v else lookupScript s k' := by
  induction s with
  | nil => simp [setScript, lookupScript, eq_comm]
  | cons hd tl ih =>
      obtain ⟨hk, hv⟩ := hd
      by_cases h1 : hk = k
      · subst h1
        by_cases h2 : k' = hk
        · subst h2; simp [setScript, lookupScript]
        · have h3 : ¬ (hk = k') := fun h => h2 h.symm
          simp [setScript, lookupScript, h2, h3]
      · by_cases h2 : k' = k
        · subst h2
          have h3 : ¬ (hk = k') := fun h => h1 h
          simp [setScript, lookupScript, h1, h3, ih]
        · simp [setScript, lookupScript, h1, h2, ih]

/-- Every pair of an association list after an assignment was either already
present or carries the assigned key. -/
theorem mem_setScript (s : List (String × String)) (k v : String) (q : String × String)
    (h : q ∈ setScript s k v) : q ∈ s ∨ q.1 = k := by
  induction s with
  | nil => simp [setScript] at h; simp [h]
  | cons hd tl ih =>
      obtain ⟨hk, hv⟩ := hd
      by_cases h1 : hk = k
      · subst h1
        simp [setScript] at h
        rcases h with h | h
        · simp [h]
        · simp [h]
      · simp [setScript, h1] at h
        rcases h with h | h
        · simp [h]
        · rcases ih h with h2 | h2 <;> simp [h2]

/-- Claim C1: for every tool set T drawn from axe, pa11y and lighthouse
(given by the three toggle answers and listed in selection order), the CI
workflow text produced by `generateWorkflowContent` contains the axe-core
job block iff axe is in T, the lighthouse job block iff lighthouse is in T,
and the pa11y job block iff pa11y is in T; no per-tool job block for a tool
outside T appears in the output.  Containment of a block is expressed as
its line list occurring as a contiguous run of the lines of the generated
document. -/
theorem claim_C1_job_blocks_iff_selected (a p l : Bool) :
    ((generateAxeJobLines <:+: workflowLines (selectedToolsOf a p l)) ↔
       Tool.axe ∈ selectedToolsOf a p l) ∧
    ((generateLighthouseJobLines <:+: workflowLines (selectedToolsOf a p l)) ↔
       Tool.lighthouse ∈ selectedToolsOf a p l) ∧
    ((generatePa11yJobLines <:+: workflowLines (selectedToolsOf a p l)) ↔
       Tool.pa11y ∈ selectedToolsOf a p l) := by
  cases a <;> cases p <;> cases l <;> decide

/-- Claim C4: in the workflow generated for every non-empty selection, each
per-tool job (axe-core, lighthouse, pa11y) declares `needs: setup`, and both
the accessibility-comment job and the accessibility-summary job declare a
`needs` list containing exactly the job names of the selected tools, in
selection order, with the tool `axe` rendered as `axe-core`. -/
theorem claim_C4_needs_graph (a p l : Bool) (hne : selectedToolsOf a p l ≠ []) :
    (Tool.axe ∈ selectedToolsOf a p l →
      [ "", "  axe-core:", "    name: Axe Core Accessibility Testing",
        "    runs-on: ubuntu-latest", "    needs: setup" ]
        <:+: workflowLines (selectedToolsOf a p l)) ∧
    (Tool.lighthouse ∈ selectedToolsOf a p l →
      [ "", "  lighthouse:", "    name: Lighthouse Accessibility & Performance",
        "    runs-on: ubuntu-latest", "    needs: setup" ]
        <:+: workflowLines (selectedToolsOf a p l)) ∧
    (Tool.pa11y ∈ selectedToolsOf a p l →
      [ "", "  pa11y:", "    name: Pa11y Accessibility Testing",
        "    runs-on: ubuntu-latest", "    needs: setup" ]
        <:+: workflowLines (selectedToolsOf a p l)) ∧
    ([ "  accessibility-comment:", "    name: Accessibility Test Summary Comment",
       "    runs-on: ubuntu-latest", "    needs: " ++ jobNeedsList (selectedToolsOf a p l) ]
       <:+: workflowLines (selectedToolsOf a p l)) ∧
    ([ "  accessibility-summary:", "    name: Accessibility Test Summary",
       "    runs-on: ubuntu-latest", "    needs: " ++ jobNeedsList (selectedToolsOf a p l) ]
       <:+: workflowLines (selectedToolsOf a p l)) := by
  cases a <;> cases p <;> cases l <;> first | (exact absurd rfl hne) | decide

/-- Witness for C4 at the full selection. -/
theorem claim_C4_needs_graph_witness :
    selectedToolsOf true true true ≠ [] ∧
    ([ "  accessibility-summary:", "    name: Accessibility Test Summary",
       "    runs-on: ubuntu-latest", "    needs: " ++ jobNeedsList (selectedToolsOf true true true) ]
       <:+: workflowLines (selectedToolsOf true true true)) :=
  ⟨by decide, (claim_C4_needs_graph true true true (by decide)).2.2.2.2⟩

/-- Claim C5: `detectPackageManager` returns yarn when `yarn.lock` exists,
else pnpm when `pnpm-lock.yaml` exists, else npm when `package-lock.json`
exists, and npm when no lock file exists; the result is always one of yarn,
pnpm, npm. -/
theorem claim_C5_detect_package_manager (fileInCwd : String → Bool) :
    detectPackageManager fileInCwd =
      (if fileInCwd "yarn.lock" then PkgManager.yarn
       else if fileInCwd "pnpm-lock.yaml" then PkgManager.pnpm
       else if fileInCwd "package-lock.json" then PkgManager.npm
       else PkgManager.npm) ∧
    detectPackageManager fileInCwd ∈ [PkgManager.yarn, PkgManager.pnpm, PkgManager.npm] := by
  constructor
  · cases hy : fileInCwd "yarn.lock" <;> cases hp : fileInCwd "pnpm-lock.yaml" <;>
      cases hn : fileInCwd "package-lock.json" <;>
      simp [detectPackageManager, lockFileEntries, List.find?, hy, hp, hn]
  · cases h : detectPackageManager fileInCwd <;> simp

/-- Claim C6: each tool maps through the static tables to a fixed installed
package (axe to @axe-core/cli, pa11y to pa11y, lighthouse to @lhci/cli), a
fixed shell command for its `a11y:` script, and a fixed documentation link
shown in the resource list; `installSelectedTools` installs exactly the
mapped packages of the selection, and `displayResourceLinks` shows the
mapped link of every selected tool.  The tables are closed functions of the
tool alone, so the mappings depend on no other input. -/
theorem claim_C6_static_tool_mappings :
    (TOOL_DEPENDENCIES Tool.axe = "@axe-core/cli" ∧ TOOL_DEPENDENCIES Tool.pa11y = "pa11y" ∧
     TOOL_DEPENDENCIES Tool.lighthouse = "@lhci/cli") ∧
    (SCRIPT_MAPPINGS Tool.axe = "axe http://localhost:3000 --exit" ∧
     SCRIPT_MAPPINGS Tool.pa11y =
       "pa11y --standard WCAG2AA --timeout 30000 --wait 2000 --include-warnings http://localhost:3000" ∧
     SCRIPT_MAPPINGS Tool.lighthouse = "lhci autorun") ∧
    (RESOURCE_LINKS Tool.axe = "Axe: https://www.deque.com/axe/" ∧
     RESOURCE_LINKS Tool.pa11y = "Pa11y: https://pa11y.org/" ∧
     RESOURCE_LINKS Tool.lighthouse =
       "Lighthouse: https://developers.google.com/web/tools/lighthouse") ∧
    (∀ (env : Env) (selectedTools : List Tool),
      env.installThrows = false → env.copyTemplateThrows = false → selectedTools ≠ [] →
      installSelectedToolsRun env selectedTools =
        Except.ok ([Effect.installPkgs (selectedTools.map TOOL_DEPENDENCIES)]
          ++ (if Tool.lighthouse ∈ selectedTools then [Effect.copyTemplate "lighthouserc.json"]
              else []))) ∧
    (∀ (selectedTools : List Tool) (t : Tool), t ∈ selectedTools →
      Effect.logMsg (RESOURCE_LINKS t) "info" ∈ displayResourceLinksEff selectedTools) := by
  refine ⟨⟨rfl, rfl, rfl⟩, ⟨rfl, rfl, rfl⟩, ⟨rfl, rfl, rfl⟩, ?_, ?_⟩
  · intro env selectedTools h1 h2 h3
    by_cases hm : Tool.lighthouse ∈ selectedTools <;>
      simp [installSelectedToolsRun, installPackagesEff, h1, h2, hm, List.length_eq_zero, h3]
  · intro selectedTools t ht
    simp [displayResourceLinksEff]
    exact Or.inl ⟨t, ht, rfl⟩

/-- Witness for C6 at the full selection with a non-failing environment. -/
theorem claim_C6_static_tool_mappings_witness :
    envAllOk.installThrows = false ∧ envAllOk.copyTemplateThrows = false ∧
    ([Tool.axe, Tool.pa11y, Tool.lighthouse] : List Tool) ≠ [] ∧
    Tool.pa11y ∈ ([Tool.axe, Tool.pa11y, Tool.lighthouse] : List Tool) ∧
    installSelectedToolsRun envAllOk [Tool.axe, Tool.pa11y, Tool.lighthouse] =
      Except.ok [Effect.installPkgs ["@axe-core/cli", "pa11y", "@lhci/cli"],
        Effect.copyTemplate "lighthouserc.json"] ∧
    Effect.logMsg (RESOURCE_LINKS Tool.pa11y) "info" ∈
      displayResourceLinksEff [Tool.axe, Tool.pa11y, Tool.lighthouse] := by
  refine ⟨by decide, by decide, by decide, by decide, ?_, ?_⟩
  · have h := claim_C6_static_tool_mappings.2.2.2.1 envAllOk
      [Tool.axe, Tool.pa11y, Tool.lighthouse] (by decide) (by decide) (by decide)
    simpa using h
  · exact claim_C6_static_tool_mappings.2.2.2.2 [Tool.axe, Tool.pa11y, Tool.lighthouse]
      Tool.pa11y (by decide)

/-- Claim C2: for every tool set T (given by the toggle answers, in
selection order) and package manager, `updatePackageJsonWithScripts` adds to
`scripts` exactly the entry `a11y:t` with the fixed `SCRIPT_MAPPINGS`
command for each t in T and no `a11y:t` entry for any t outside T (such an
entry keeps whatever value it had before); and when T is non-empty it
additionally sets `preview` to `vite preview` and `a11y:all` to a
`concurrently` invocation listing one package-manager run command per tool
of T, in selection order. -/
theorem claim_C2_scripts_added (packageData : PackageJson) (a p l : Bool) (pm : PkgManager) :
    (∀ t : Tool, t ∈ selectedToolsOf a p l →
      lookupScript
          (((updatePackageJsonWithScripts packageData (selectedToolsOf a p l) pm).scripts).getD [])
          ("a11y:" ++ toolName t)
        = some (SCRIPT_MAPPINGS t)) ∧
    (∀ t : Tool, t ∉ selectedToolsOf a p l →
      lookupScript
          (((updatePackageJsonWithScripts packageData (selectedToolsOf a p l) pm).scripts).getD [])
          ("a11y:" ++ toolName t)
        = lookupScript (packageData.scripts.getD []) ("a11y:" ++ toolName t)) ∧
    (selectedToolsOf a p l ≠ [] →
      lookupScript
          (((updatePackageJsonWithScripts packageData (selectedToolsOf a p l) pm).scripts).getD [])
          "preview"
        = some "vite preview" ∧
      lookupScript
          (((updatePackageJsonWithScripts packageData (selectedToolsOf a p l) pm).scripts).getD [])
          "a11y:all"
        = some ("concurrently \"" ++ String.intercalate "\" \""
            ((selectedToolsOf a p l).map
              (fun t => getPackageManagerCommand pm ++ " a11y:" ++ toolName t)) ++ "\"")) := by
  refine ⟨?_, ?_, ?_⟩
  · intro t ht
    cases t <;> cases a <;> cases p <;> cases l <;>
      simp_all [updatePackageJsonWithScripts, selectedToolsOf, lookupScript_setScript,
        SCRIPT_MAPPINGS, toolName, List.foldl]
  · intro t ht
    cases t <;> cases a <;> cases p <;> cases l <;>
      simp_all [updatePackageJsonWithScripts, selectedToolsOf, lookupScript_setScript,
        SCRIPT_MAPPINGS, toolName, List.foldl]
  · intro hne
    cases a <;> cases p <;> cases l <;>
      simp_all [updatePackageJsonWithScripts, selectedToolsOf, lookupScript_setScript,
        SCRIPT_MAPPINGS, toolName, List.foldl]

/-- Witness for C2: the selection axe + lighthouse under yarn, on the sample
`package.json`. -/
theorem claim_C2_scripts_added_witness :
    Tool.axe ∈ selectedToolsOf true false true ∧
    lookupScript
        (((updatePackageJsonWithScripts samplePackageJson (selectedToolsOf true false true)
          PkgManager.yarn).scripts).getD [])
        ("a11y:" ++ toolName Tool.axe)
      = some (SCRIPT_MAPPINGS Tool.axe) ∧
    Tool.pa11y ∉ selectedToolsOf true false true ∧
    lookupScript
        (((updatePackageJsonWithScripts samplePackageJson (selectedToolsOf true false true)
          PkgManager.yarn).scripts).getD [])
        ("a11y:" ++ toolName Tool.pa11y)
      = lookupScript (samplePackageJson.scripts.getD []) ("a11y:" ++ toolName Tool.pa11y) ∧
    selectedToolsOf true false true ≠ [] ∧
    lookupScript
        (((updatePackageJsonWithScripts samplePackageJson (selectedToolsOf true false true)
          PkgManager.yarn).scripts).getD [])
        "preview"
      = some "vite preview" ∧
    lookupScript
        (((updatePackageJsonWithScripts samplePackageJson (selectedToolsOf true false true)
          PkgManager.yarn).scripts).getD [])
        "a11y:all"
      = some ("concurrently \"" ++ String.intercalate "\" \""
          ((selectedToolsOf true false true).map
            (fun t => getPackageManagerCommand PkgManager.yarn ++ " a11y:" ++ toolName t)) ++ "\"") :=
  ⟨by decide,
   (claim_C2_scripts_added samplePackageJson true false true PkgManager.yarn).1 Tool.axe (by decide),
   by decide,
   (claim_C2_scripts_added samplePackageJson true false true PkgManager.yarn).2.1 Tool.pa11y
     (by decide),
   by decide,
   ((claim_C2_scripts_added samplePackageJson true false true PkgManager.yarn).2.2 (by decide)).1,
   ((claim_C2_scripts_added samplePackageJson true false true PkgManager.yarn).2.2 (by decide)).2⟩

/-- Claim C9: `updatePackageJsonWithScripts` preserves every top-level field
other than `scripts`, and inside `scripts` preserves every pre-existing
entry whose key is none of `preview`, `a11y:axe`, `a11y:pa11y`,
`a11y:lighthouse`, `a11y:all`. -/
theorem claim_C9_update_frame (packageData : PackageJson) (a p l : Bool) (pm : PkgManager)
    (k : String)
    (hk : ¬ k ∈ (["preview", "a11y:axe", "a11y:pa11y", "a11y:lighthouse", "a11y:all"] :
      List String)) :
    (updatePackageJsonWithScripts packageData (selectedToolsOf a p l) pm).otherFields
      = packageData.otherFields ∧
    lookupScript
        (((updatePackageJsonWithScripts packageData (selectedToolsOf a p l) pm).scripts).getD []) k
      = lookupScript (packageData.scripts.getD []) k := by
  simp only [List.mem_cons, List.not_mem_nil, or_false, not_or] at hk
  obtain ⟨h1, h2, h3, h4, h5⟩ := hk
  refine ⟨rfl, ?_⟩
  cases a <;> cases p <;> cases l <;>
    simp [updatePackageJsonWithScripts, selectedToolsOf, lookupScript_setScript,
      toolName, List.foldl, h1, h2, h3, h4, h5]

/-- Witness for C9 at the key `build` of the sample `package.json`. -/
theorem claim_C9_update_frame_witness :
    ¬ "build" ∈ (["preview", "a11y:axe", "a11y:pa11y", "a11y:lighthouse", "a11y:all"] :
        List String) ∧
    (updatePackageJsonWithScripts samplePackageJson (selectedToolsOf true true true)
        PkgManager.npm).otherFields = samplePackageJson.otherFields ∧
    lookupScript
        (((updatePackageJsonWithScripts samplePackageJson (selectedToolsOf true true true)
          PkgManager.npm).scripts).getD []) "build"
      = lookupScript (samplePackageJson.scripts.getD []) "build" :=
  ⟨by decide,
   (claim_C9_update_frame samplePackageJson true true true PkgManager.npm "build" (by decide)).1,
   (claim_C9_update_frame samplePackageJson true true true PkgManager.npm "build" (by decide)).2⟩

/-- Counterexample to claim C3 as stated: in a run where only the package
installation commands fail, an error is raised (and caught inside
`installPackages`, visible in the trace as a caught installation error), yet
the process exits with code 0, not 1. -/
theorem claim_C3_counterexample :
    (runApplication envInstallFails).1 = 0 ∧
    Effect.caughtInstallError ["@axe-core/cli"] ∈ (runApplication envInstallFails).2 := by
  decide

/-- Claim C3 as amended: the exit code of every run is 0 or 1; a run in a
project that fails validation exits with code 1; and every error that
propagates to the top-level handler is caught there, the handler messages
are logged, and the process exits with code 1.  (Errors raised inside
`installPackages` are caught locally and do not terminate the run, which is
exactly what the counterexample exhibits.) -/
theorem claim_C3_exit_code (env : Env) :
    ((runApplication env).1 = 0 ∨ (runApplication env).1 = 1) ∧
    (env.pkgJsonExists = false ∨ env.pkgJsonParses = false ∨
        (env.hasReact && env.hasVite) = false →
      (runApplication env).1 = 1) ∧
    (∀ es, runBody env = Except.error es →
      env.pkgJsonExists = true → env.pkgJsonParses = true →
        (env.hasReact && env.hasVite) = true →
      runApplication env = (1, es ++ catchLogs)) := by
  refine ⟨?_, ?_, ?_⟩
  · by_cases h1 : env.pkgJsonExists = false
    · simp [runApplication, h1]
    · by_cases h2 : env.pkgJsonParses = false
      · simp [runApplication, h1, h2]
      · by_cases h3 : (env.hasReact && env.hasVite) = false
        · simp [runApplication, h1, h2, h3]
        · rcases h : runBody env with es | es <;> simp [runApplication, h1, h2, h3, h]
  · intro hv
    by_cases h1 : env.pkgJsonExists = false
    · simp [runApplication, h1]
    · by_cases h2 : env.pkgJsonParses = false
      · simp [runApplication, h1, h2]
      · by_cases h3 : (env.hasReact && env.hasVite) = false
        · simp [runApplication, h1, h2, h3]
        · rcases hv with h | h | h <;> simp_all
  · intro es hb h1 h2 h3
    simp [runApplication, h1, h2, h3, hb]

/-- Witness for the amended C3: a run where reading `package.json` throws
inside `updatePackageJsonWithScripts`; the exception reaches the top-level
handler and the process exits with code 1 after logging. -/
theorem claim_C3_exit_code_witness :
    runBody envReadPkgFails = Except.error [Effect.installPkgs ["@axe-core/cli"]] ∧
    envReadPkgFails.pkgJsonExists = true ∧ envReadPkgFails.pkgJsonParses = true ∧
    (envReadPkgFails.hasReact && envReadPkgFails.hasVite) = true ∧
    runApplication envReadPkgFails = (1, [Effect.installPkgs ["@axe-core/cli"]] ++ catchLogs) :=
  ⟨rfl, rfl, rfl, rfl,
   (claim_C3_exit_code envReadPkgFails).2.2 [Effect.installPkgs ["@axe-core/cli"]] rfl rfl rfl rfl⟩

/-- Claim C7: in every fault-free run in a valid project, the file
`.github/workflows/accessibility.yml` is written iff the user enabled CI
integration and selected at least one tool; and every file written during
such a run is `package.json`, the workflow file at exactly that path, or
`eslint.config.js`. -/
theorem claim_C7_workflow_written_iff
    (axeAns pa11yAns lighthouseAns ciAns lintAns eslintExists : Bool) :
    (Effect.writeFileAt workflowFilePath ∈
        (runApplication (cleanEnv axeAns pa11yAns lighthouseAns ciAns lintAns eslintExists)).2 ↔
      ciAns = true ∧ selectedToolsOf axeAns pa11yAns lighthouseAns ≠ []) ∧
    writtenPaths (runApplication (cleanEnv axeAns pa11yAns lighthouseAns ciAns lintAns
        eslintExists)).2
      ⊆ ["package.json", workflowFilePath, eslintConfigPath] := by
  cases axeAns <;> cases pa11yAns <;> cases lighthouseAns <;> cases ciAns <;>
    cases lintAns <;> cases eslintExists <;> decide

/-- Claim C8: `getUserPreferences` returns `ci = false` whenever the
selected tool list is empty, and the guard under which `cli.js` invokes the
CI workflow generator can only hold for a non-empty tool list, so the
generator is never invoked with an empty selection. -/
theorem claim_C8_ci_false_when_no_tools (axeAns pa11yAns lighthouseAns ciAns lintAns : Bool) :
    ((getUserPreferences axeAns pa11yAns lighthouseAns ciAns lintAns).selectedTools = [] →
      (getUserPreferences axeAns pa11yAns lighthouseAns ciAns lintAns).ci = false) ∧
    (∀ prefs : Preferences, ciGuard prefs = true → prefs.selectedTools ≠ []) := by
  constructor
  · intro h
    cases axeAns <;> cases pa11yAns <;> cases lighthouseAns <;>
      simp_all [getUserPreferences, selectedToolsOf]
  · intro prefs hg hemp
    simp [ciGuard, hemp] at hg

/-- Witness for C8: all tool toggles answered no (so the tool list is empty
and `ci` comes out false even though the CI answer would have been yes), and
the CI guard holding on a preferences record with one selected tool. -/
theorem claim_C8_ci_false_when_no_tools_witness :
    (getUserPreferences false false false true true).selectedTools = [] ∧
    (getUserPreferences false false false true true).ci = false ∧
    ciGuard { selectedTools := [Tool.axe], ci := true, lint := true } = true ∧
    ({ selectedTools := [Tool.axe], ci := true, lint := true } : Preferences).selectedTools ≠ [] :=
  ⟨rfl,
   (claim_C8_ci_false_when_no_tools false false false true true).1 rfl,
   by decide,
   (claim_C8_ci_false_when_no_tools false false false true true).2
     { selectedTools := [Tool.axe], ci := true, lint := true } (by decide)⟩

/-- Claim C10: when accessibility linting is enabled and no
`eslint.config.js` exists, `setupAccessibilityLinting` logs a warning,
writes or copies no file at all (in particular it creates or modifies no
ESLint config), and raises no error, so the run continues to completion. -/
theorem claim_C10_no_eslint_config (env : Env) (h : env.eslintConfigExists = false) :
    ∃ es, setupAccessibilityLintingRun env = Except.ok es ∧
      Effect.logMsg
          "Warning: No eslint.config.js found. Please configure eslint-plugin-jsx-a11y manually."
          "warning" ∈ es ∧
      (∀ pth, Effect.writeFileAt pth ∉ es) ∧
      (∀ fn, Effect.copyTemplate fn ∉ es) := by
  cases hI : env.installThrows with
  | false =>
      refine ⟨[Effect.logMsg "Setting up accessibility linting" "section",
        Effect.installPkgs ["eslint-plugin-jsx-a11y"],
        Effect.logMsg
          "Warning: No eslint.config.js found. Please configure eslint-plugin-jsx-a11y manually."
          "warning"], ?_, by decide, ?_, ?_⟩
      · simp [setupAccessibilityLintingRun, h, hI, installPackagesEff]
      · intro pth; simp
      · intro fn; simp
  | true =>
      refine ⟨[Effect.logMsg "Setting up accessibility linting" "section",
        Effect.caughtInstallError ["eslint-plugin-jsx-a11y"],
        Effect.logMsg
          "Warning: No eslint.config.js found. Please configure eslint-plugin-jsx-a11y manually."
          "warning"], ?_, by decide, ?_, ?_⟩
      · simp [setupAccessibilityLintingRun, h, hI, installPackagesEff]
      · intro pth; simp
      · intro fn; simp

/-- Witness for C10 in the all-successful environment, which has no
`eslint.config.js`. -/
theorem claim_C10_no_eslint_config_witness :
    envAllOk.eslintConfigExists = false ∧
    ∃ es, setupAccessibilityLintingRun envAllOk = Except.ok es ∧
      Effect.logMsg
          "Warning: No eslint.config.js found. Please configure eslint-plugin-jsx-a11y manually."
          "warning" ∈ es ∧
      (∀ pth, Effect.writeFileAt pth ∉ es) ∧
      (∀ fn, Effect.copyTemplate fn ∉ es) :=
  ⟨rfl, claim_C10_no_eslint_config envAllOk rfl⟩
